import Mathlib

/-!
Shallow embedding of the "Global Entry Strategy Dashboard" React application
(App.tsx, components/ScenarioTabs.tsx, components/ResultsTable.tsx,
components/CountryDetailCard.tsx and the ResultsScreen / StrategySelector /
WeightAdjuster components).  Static lookup tables are embedded as association
lists of string keys, numeric score fields as exact rationals, and the event
handlers as pure transition functions on explicit state records.
-/

namespace Dashboard

/-- One row of a scenario result dataset (interface `CountryResult`). -/
structure CountryResult where
  rank : Nat
  iso : String
  country : String
  topsisScore : ℚ
  rcScore : ℚ
  gdpPerCapita : ℚ
  digitalInfra : ℚ
  jobMarket : ℚ
  description : String
deriving DecidableEq

/-- The per-scenario weight quadruple (the value type of `scenarioWeights`). -/
structure ScenarioWeights where
  rc : ℚ
  gdp : ℚ
  infra : ℚ
  job : ℚ
deriving DecidableEq

/-- A scenario tab entry (`scenarios` in ScenarioTabs.tsx). -/
structure Scenario where
  id : String
  label : String
deriving DecidableEq

/-- The five scenario tabs of ScenarioTabs.tsx, in source order. -/
def scenarios : List Scenario :=
  [ ⟨"balanced", "Balanced"⟩,
    ⟨"talent-focused", "Talent-Focused"⟩,
    ⟨"regulation-focused", "Regulation-Focused"⟩,
    ⟨"market-focused", "Market-Focused"⟩,
    ⟨"infra-focused", "Infra-Focused"⟩ ]

/-- The scenario identifiers offered by the tabs. -/
def scenarioIds : List String := scenarios.map (·.id)

/-- The `'balanced'` entry of the static `scenarioData` record. -/
def balancedData : List CountryResult :=
     [ ⟨1, "USA", "United States", 0.892, 72.5, 69287, 88.3, 91.2,
        "The United States leads with balanced excellence across all metrics. Strong job market and digital infrastructure make it ideal for AI startups seeking talent and technical capabilities."⟩,
       ⟨2, "GBR", "United Kingdom", 0.845, 68.2, 46125, 85.7, 84.6,
        "The UK offers a strong regulatory environment and competitive job market, particularly in London. Good balance between market access and talent availability."⟩,
       ⟨3, "CAN", "Canada", 0.821, 75.8, 52051, 83.4, 79.5,
        "Canada provides favorable regulations and a welcoming environment for tech companies. Strong immigration policies support talent acquisition."⟩,
       ⟨4, "AUS", "Australia", 0.798, 71.3, 51812, 82.1, 76.8,
        "Australia combines strong digital infrastructure with a stable regulatory framework. Growing tech ecosystem in Sydney and Melbourne."⟩,
       ⟨5, "DEU", "Germany", 0.776, 65.4, 50795, 81.9, 82.3,
        "Germany offers access to the EU market with strong engineering talent. Regulations favor data privacy and consumer protection."⟩,
       ⟨6, "KOR", "South Korea", 0.754, 69.7, 35196, 92.5, 74.2,
        "South Korea leads in digital infrastructure with world-class connectivity. Strong government support for AI and technology sectors."⟩ ]

/-- The `'talent-focused'` entry of the static `scenarioData` record. -/
def talentData : List CountryResult :=
     [ ⟨1, "USA", "United States", 0.921, 72.5, 69287, 88.3, 91.2,
        "The United States dominates in AI talent with deep pools in Silicon Valley, Boston, and Seattle. Top universities and competitive compensation attract global talent."⟩,
       ⟨2, "GBR", "United Kingdom", 0.867, 68.2, 46125, 85.7, 84.6,
        "The UK, particularly London, offers strong AI research talent from leading universities like Oxford and Cambridge."⟩,
       ⟨3, "DEU", "Germany", 0.834, 65.4, 50795, 81.9, 82.3,
        "Germany provides excellent engineering talent with strong technical education and research institutions."⟩,
       ⟨4, "CAN", "Canada", 0.812, 75.8, 52051, 83.4, 79.5,
        "Canada has emerged as an AI research hub with centers in Toronto, Montreal, and Vancouver. Immigration-friendly policies attract talent."⟩,
       ⟨5, "AUS", "Australia", 0.781, 71.3, 51812, 82.1, 76.8,
        "Australia offers growing AI talent pools and quality of life that attracts international workers."⟩,
       ⟨6, "KOR", "South Korea", 0.765, 69.7, 35196, 92.5, 74.2,
        "South Korea has strong technical talent in AI and robotics, supported by major tech companies."⟩ ]

/-- The `'regulation-focused'` entry of the static `scenarioData` record. -/
def regulationData : List CountryResult :=
     [ ⟨1, "CAN", "Canada", 0.887, 75.8, 52051, 83.4, 79.5,
        "Canada leads in regulatory clarity with progressive AI governance frameworks and supportive government policies."⟩,
       ⟨2, "USA", "United States", 0.856, 72.5, 69287, 88.3, 91.2,
        "The US offers relatively favorable regulations with innovation-friendly policies at federal and state levels."⟩,
       ⟨3, "AUS", "Australia", 0.829, 71.3, 51812, 82.1, 76.8,
        "Australia provides clear regulatory frameworks with balanced approach to innovation and consumer protection."⟩,
       ⟨4, "KOR", "South Korea", 0.801, 69.7, 35196, 92.5, 74.2,
        "South Korea maintains tech-friendly regulations with strong government support for AI development."⟩,
       ⟨5, "GBR", "United Kingdom", 0.778, 68.2, 46125, 85.7, 84.6,
        "The UK offers post-Brexit regulatory flexibility while maintaining high standards for AI governance."⟩,
       ⟨6, "DEU", "Germany", 0.743, 65.4, 50795, 81.9, 82.3,
        "Germany follows strict EU regulations with emphasis on data protection and ethical AI deployment."⟩ ]

/-- The `'market-focused'` entry of the static `scenarioData` record. -/
def marketData : List CountryResult :=
     [ ⟨1, "USA", "United States", 0.905, 72.5, 69287, 88.3, 91.2,
        "The United States offers the largest market with highest GDP per capita and consumer spending power."⟩,
       ⟨2, "CAN", "Canada", 0.871, 75.8, 52051, 83.4, 79.5,
        "Canada provides strong purchasing power and serves as gateway to North American markets."⟩,
       ⟨3, "AUS", "Australia", 0.847, 71.3, 51812, 82.1, 76.8,
        "Australia offers high GDP per capita with strong consumer markets in urban centers."⟩,
       ⟨4, "DEU", "Germany", 0.823, 65.4, 50795, 81.9, 82.3,
        "Germany provides access to wealthy European markets as the economic engine of the EU."⟩,
       ⟨5, "GBR", "United Kingdom", 0.798, 68.2, 46125, 85.7, 84.6,
        "The UK offers strong domestic market and serves as financial hub with high-value sectors."⟩,
       ⟨6, "KOR", "South Korea", 0.721, 69.7, 35196, 92.5, 74.2,
        "South Korea has growing market with tech-savvy consumers but lower GDP per capita."⟩ ]

/-- The `'infra-focused'` entry of the static `scenarioData` record. -/
def infraData : List CountryResult :=
     [ ⟨1, "KOR", "South Korea", 0.934, 69.7, 35196, 92.5, 74.2,
        "South Korea leads globally in digital infrastructure with fastest internet speeds and comprehensive 5G coverage."⟩,
       ⟨2, "USA", "United States", 0.891, 72.5, 69287, 88.3, 91.2,
        "The US provides world-class cloud infrastructure with major data centers and tech infrastructure."⟩,
       ⟨3, "GBR", "United Kingdom", 0.862, 68.2, 46125, 85.7, 84.6,
        "The UK offers strong digital connectivity and well-developed tech infrastructure in major cities."⟩,
       ⟨4, "CAN", "Canada", 0.839, 75.8, 52051, 83.4, 79.5,
        "Canada maintains excellent digital infrastructure with reliable connectivity across urban centers."⟩,
       ⟨5, "AUS", "Australia", 0.817, 71.3, 51812, 82.1, 76.8,
        "Australia has invested heavily in digital infrastructure despite geographic challenges."⟩,
       ⟨6, "DEU", "Germany", 0.795, 65.4, 50795, 81.9, 82.3,
        "Germany offers solid infrastructure though lags behind leaders in certain connectivity metrics."⟩ ]

/-- The static `scenarioData` record of ResultsScreen, embedded as an
association list from scenario identifier to result list, in source order. -/
def scenarioDataTable : List (String × List CountryResult) :=
  [ ("balanced", balancedData),
    ("talent-focused", talentData),
    ("regulation-focused", regulationData),
    ("market-focused", marketData),
    ("infra-focused", infraData) ]

/-- The static `scenarioWeights` record of ResultsScreen, as an association
list, in source order. -/
def scenarioWeightsTable : List (String × ScenarioWeights) :=
  [ ("balanced", ⟨0.25, 0.25, 0.25, 0.25⟩),
    ("talent-focused", ⟨0.20, 0.20, 0.20, 0.40⟩),
    ("regulation-focused", ⟨0.40, 0.20, 0.20, 0.20⟩),
    ("market-focused", ⟨0.20, 0.40, 0.20, 0.20⟩),
    ("infra-focused", ⟨0.20, 0.20, 0.40, 0.20⟩) ]

/-- JavaScript property access on a string-keyed record literal, embedded as
association-list lookup; `none` models an `undefined` result. -/
def lookupTable {α : Type} (t : List (String × α)) (k : String) : Option α :=
  (t.find? (fun p => p.1 == k)).map (·.2)

/-- `scenarioData[k]` on the static table. -/
def scenarioData (k : String) : Option (List CountryResult) :=
  lookupTable scenarioDataTable k

/-- `scenarioWeights[k]` on the static table. -/
def scenarioWeights (k : String) : Option ScenarioWeights :=
  lookupTable scenarioWeightsTable k

/-- A configuration-screen weight slider entry (interface `Weight` in
App.tsx / WeightAdjuster.tsx). -/
structure Weight where
  id : String
  label : String
  technicalLabel : String
  value : ℚ
deriving DecidableEq

/-- A strategy card (`strategies` in StrategySelector.tsx). -/
structure Strategy where
  id : String
  title : String
  subtitle : String
deriving DecidableEq

/-- The five strategy cards of StrategySelector.tsx, in source order. -/
def strategies : List Strategy :=
  [ ⟨"balanced", "Balanced", "Equal consideration across all factors"⟩,
    ⟨"talent-focused", "Talent-Focused", "For AI startups that care about hiring"⟩,
    ⟨"regulation-focused", "Regulation-Focused", "Prioritize favorable regulatory environments"⟩,
    ⟨"market-focused", "Market-Focused", "Emphasize market size and economic potential"⟩,
    ⟨"infra-focused", "Infra-Focused", "Optimize for digital infrastructure quality"⟩ ]

/-- The strategy identifiers offered by the strategy cards. -/
def strategyIds : List String := strategies.map (·.id)

/-- The initial `weights` state of App.tsx (`useState<Weight[]>([...])`). -/
def appInitialWeights : List Weight :=
  [ ⟨"regulation", "Regulation Complexity", "RC_score", 25⟩,
    ⟨"market", "Market Size", "gdp_per_capita", 25⟩,
    ⟨"infrastructure", "Digital Infrastructure", "digital_infra_index", 25⟩,
    ⟨"talent", "AI Job Market", "ai_job_market_score", 25⟩ ]

/-- `handleWeightChange` from App.tsx: map over the weight list, replacing the
`value` of entries whose `id` matches. -/
def handleWeightChange (weights : List Weight) (id : String) (value : ℚ) :
    List Weight :=
  weights.map (fun w => if w.id == id then { w with value := value } else w)

/-- The component-local state of App.tsx. -/
structure AppState where
  showResults : Bool
  selectedStrategy : String
  weights : List Weight
deriving DecidableEq

/-- The component-local state of ResultsScreen. -/
structure ResultsState where
  selectedScenario : String
  selectedCountry : Option String
deriving DecidableEq

/-- The initial ResultsScreen state: `useState('talent-focused')` and
`useState<string | null>('USA')`. -/
def resultsInit : ResultsState :=
  ⟨"talent-focused", some "USA"⟩

/-- The whole program state: the two module-level lookup tables together with
the component-local state of App and of ResultsScreen. -/
structure FullState where
  dataTable : List (String × List CountryResult)
  weightsTable : List (String × ScenarioWeights)
  app : AppState
  results : ResultsState
deriving DecidableEq

/-- The program state at load: the static tables and the `useState` initial
values (`showResults = false`, `selectedStrategy = 'balanced'`). -/
def initialState : FullState :=
  ⟨scenarioDataTable, scenarioWeightsTable,
   ⟨false, "balanced", appInitialWeights⟩, resultsInit⟩

/-- The user events handled by the program: a strategy-card click, a weight
slider change, the Run Analysis button, the Back button, a scenario-tab click
and a results-table row click. -/
inductive Event where
  | strategyClick (id : String)
  | sliderChange (id : String) (value : ℚ)
  | runAnalysis
  | back
  | scenarioTabClick (id : String)
  | tableRowClick (iso : String)
deriving DecidableEq

/-- The event handlers as one transition function.  `runAnalysis` sets
`showResults` and freshly mounts ResultsScreen (its `useState` initials);
`back` unmounts it (`setShowResults(false)`); the remaining handlers call the
corresponding `set...` state setter. -/
def step (st : FullState) : Event → FullState
  | .strategyClick id =>
      { st with app := { st.app with selectedStrategy := id } }
  | .sliderChange id value =>
      { st with app :=
          { st.app with weights := handleWeightChange st.app.weights id value } }
  | .runAnalysis =>
      { st with app := { st.app with showResults := true }, results := resultsInit }
  | .back =>
      { st with app := { st.app with showResults := false } }
  | .scenarioTabClick id =>
      { st with results := { st.results with selectedScenario := id } }
  | .tableRowClick iso =>
      { st with results := { st.results with selectedCountry := some iso } }

/-- `const currentResults = scenarioData[selectedScenario]` in ResultsScreen. -/
def currentResults (st : FullState) : Option (List CountryResult) :=
  lookupTable st.dataTable st.results.selectedScenario

/-- `const currentWeights = scenarioWeights[selectedScenario]`. -/
def currentWeights (st : FullState) : Option ScenarioWeights :=
  lookupTable st.weightsTable st.results.selectedScenario

/-- The rows the results table receives (empty when the lookup is undefined,
a case the reachability analysis rules out). -/
def currentResultsList (st : FullState) : List CountryResult :=
  (currentResults st).getD []

/-- `currentResults.find(c => c.iso === selectedCountry) || null`. -/
def selectedCountryDetail (st : FullState) : Option CountryResult :=
  (currentResults st).bind
    (fun rs => rs.find? (fun c => st.results.selectedCountry == some c.iso))

/-- What one `<tr>` of ResultsTable.tsx displays for a record: the eight
columns, in order. -/
structure TableRow where
  rank : Nat
  iso : String
  country : String
  topsisScore : ℚ
  rcScore : ℚ
  gdpPerCapita : ℚ
  digitalInfra : ℚ
  jobMarket : ℚ
deriving DecidableEq

/-- The cells of the table row rendered for one record. -/
def renderRow (c : CountryResult) : TableRow :=
  ⟨c.rank, c.iso, c.country, c.topsisScore, c.rcScore, c.gdpPerCapita,
   c.digitalInfra, c.jobMarket⟩

/-- ResultsTable.tsx renders `results.map(...)`: one row per record, in list
order. -/
def resultsTableView (results : List CountryResult) : List TableRow :=
  results.map renderRow

/-- The rows ResultsScreen's table shows (undefined dataset propagated). -/
def renderedTable (st : FullState) : Option (List TableRow) :=
  (currentResults st).map resultsTableView

/-- The four weights the scenario info bar shows, in display order
(RC, GDP, Infra, Job). -/
def renderedWeights (st : FullState) : Option (ℚ × ℚ × ℚ × ℚ) :=
  (currentWeights st).map (fun w => (w.rc, w.gdp, w.infra, w.job))

/-- What CountryDetailCard renders: the placeholder, or the record fields. -/
inductive CardView where
  | placeholder
  | details (iso country : String) (rank : Nat)
      (topsisScore rcScore gdpPerCapita digitalInfra jobMarket : ℚ)
      (description : String)
deriving DecidableEq

/-- `CountryDetailCard`: the `if (!countryDetail)` placeholder branch, else
the detail view built from the record fields. -/
def CountryDetailCard : Option CountryResult → CardView
  | none => .placeholder
  | some c =>
      .details c.iso c.country c.rank c.topsisScore c.rcScore c.gdpPerCapita
        c.digitalInfra c.jobMarket c.description

/-- Everything the results screen displays that depends on state: the table
rows, the info-bar weights, and the detail card. -/
def resultsScreenView (st : FullState) :
    Option (List TableRow) × Option (ℚ × ℚ × ℚ × ℚ) × CardView :=
  (renderedTable st, renderedWeights st, CountryDetailCard (selectedCountryDetail st))

/-- The ISO codes occurring in the datasets. -/
def validIsos : List String := ["USA", "GBR", "CAN", "AUS", "DEU", "KOR"]

/-- States reachable through the UI: from the load-time state, strategy
clicks and scenario-tab clicks carry identifiers that the respective
component's card/tab list offers, row clicks carry the ISO of a rendered
row, and slider changes, Run Analysis and Back are unrestricted. -/
inductive Reachable : FullState → Prop where
  | init : Reachable initialState
  | strategyClick {st id} : Reachable st → id ∈ strategyIds →
      Reachable (step st (.strategyClick id))
  | sliderChange {st id value} : Reachable st →
      Reachable (step st (.sliderChange id value))
  | runAnalysis {st} : Reachable st → Reachable (step st .runAnalysis)
  | back {st} : Reachable st → Reachable (step st .back)
  | scenarioTabClick {st id} : Reachable st → id ∈ scenarioIds →
      Reachable (step st (.scenarioTabClick id))
  | tableRowClick {st iso} : Reachable st →
      iso ∈ (currentResultsList st).map (·.iso) →
      Reachable (step st (.tableRowClick iso))

/-! ### Reachability invariant -/

/-- Invariant maintained by every reachable state: the static tables are
untouched, the selected scenario is one of the tab identifiers, and any
selected country code occurs in the datasets. -/
def Inv (st : FullState) : Prop :=
  st.dataTable = scenarioDataTable ∧
  st.weightsTable = scenarioWeightsTable ∧
  st.results.selectedScenario ∈ scenarioIds ∧
  ∀ iso, st.results.selectedCountry = some iso → iso ∈ validIsos

theorem lookup_data_defined :
    ∀ sc ∈ scenarioIds, (lookupTable scenarioDataTable sc).isSome := by decide

theorem lookup_weights_defined :
    ∀ sc ∈ scenarioIds, (lookupTable scenarioWeightsTable sc).isSome := by decide

theorem data_isos_valid :
    ∀ sc ∈ scenarioIds, ∀ c ∈ (lookupTable scenarioDataTable sc).getD [],
      c.iso ∈ validIsos := by decide

theorem find_valid_iso :
    ∀ sc ∈ scenarioIds, ∀ iso ∈ validIsos,
      (((lookupTable scenarioDataTable sc).getD []).find?
        (fun c => some iso == some c.iso)).isSome := by decide

theorem reachable_inv {st : FullState} (h : Reachable st) : Inv st := by
  induction h with
  | init =>
      refine ⟨rfl, rfl, by decide, ?_⟩
      intro iso hiso
      simp only [initialState, resultsInit, Option.some.injEq] at hiso
      subst hiso
      decide
  | strategyClick hst hid ih =>
      exact ⟨ih.1, ih.2.1, ih.2.2.1, ih.2.2.2⟩
  | sliderChange hst ih =>
      exact ⟨ih.1, ih.2.1, ih.2.2.1, ih.2.2.2⟩
  | runAnalysis hst ih =>
      refine ⟨ih.1, ih.2.1, show "talent-focused" ∈ scenarioIds by decide, ?_⟩
      intro iso hiso
      simp only [step, resultsInit, Option.some.injEq] at hiso
      subst hiso
      decide
  | back hst ih =>
      exact ⟨ih.1, ih.2.1, ih.2.2.1, ih.2.2.2⟩
  | scenarioTabClick hst hid ih =>
      exact ⟨ih.1, ih.2.1, hid, ih.2.2.2⟩
  | @tableRowClick st iso hst hmem ih =>
      refine ⟨ih.1, ih.2.1, ih.2.2.1, ?_⟩
      intro iso2 h2
      simp only [step, Option.some.injEq] at h2
      subst h2
      rcases List.mem_map.1 hmem with ⟨c, hc, rfl⟩
      have hc2 : c ∈ (lookupTable scenarioDataTable st.results.selectedScenario).getD [] := by
        simpa [currentResultsList, currentResults, ih.1] using hc
      exact data_isos_valid _ ih.2.2.1 c hc2

/-! ### Claim theorems -/

/-- C2: in every ResultsScreen state reachable through the UI (the initial
`'talent-focused'` selection and anything a ScenarioTabs click can deliver),
the unguarded lookups `scenarioData[selectedScenario]` and
`scenarioWeights[selectedScenario]` are defined, so the subsequent
`currentResults.find(...)` call and the four weight accesses never
dereference an undefined value. -/
theorem results_screen_lookups_defined (st : FullState) (h : Reachable st) :
    (currentResults st).isSome ∧ (currentWeights st).isSome := by
  obtain ⟨hd, hw, hsc, -⟩ := reachable_inv h
  constructor
  · simpa [currentResults, hd] using lookup_data_defined _ hsc
  · simpa [currentWeights, hw] using lookup_weights_defined _ hsc

/-- Witness for C2: the lookups are defined at the load-time state. -/
theorem results_screen_lookups_defined_at_init :
    (currentResults initialState).isSome ∧ (currentWeights initialState).isSome :=
  results_screen_lookups_defined initialState Reachable.init

/-- C4: no event handler mutates the static lookup tables: after any of the
six handled events, `scenarioData` and `scenarioWeights` (the two table
fields of the program state) are unchanged. -/
theorem handlers_preserve_static_tables (st : FullState) (e : Event) :
    (step st e).dataTable = st.dataTable ∧
    (step st e).weightsTable = st.weightsTable := by
  cases e <;> exact ⟨rfl, rfl⟩

/-- C6: pressing Run Analysis from any two configurations (arbitrary slider
weight lists and strategy selections, and even arbitrary prior ResultsScreen
states) yields identical results screens: the rendered table, info-bar
weights and detail card agree. -/
theorem run_analysis_ignores_configuration
    (tbl : List (String × List CountryResult))
    (wtbl : List (String × ScenarioWeights))
    (a1 a2 : AppState) (r1 r2 : ResultsState) :
    resultsScreenView (step ⟨tbl, wtbl, a1, r1⟩ .runAnalysis) =
      resultsScreenView (step ⟨tbl, wtbl, a2, r2⟩ .runAnalysis) := rfl

/-- C9: ResultsScreen always mounts with `selectedScenario = 'talent-focused'`
and `selectedCountry = 'USA'`, whatever the App state was; App's default
strategy is `'balanced'`, so the scenario shown on entering the results
screen differs from the strategy the user chose there. -/
theorem results_screen_mount_state :
    (∀ st : FullState, (step st .runAnalysis).results = resultsInit) ∧
    resultsInit.selectedScenario = "talent-focused" ∧
    resultsInit.selectedCountry = some "USA" ∧
    initialState.app.selectedStrategy = "balanced" ∧
    (step initialState .runAnalysis).results.selectedScenario ≠
      (step initialState .runAnalysis).app.selectedStrategy := by
  refine ⟨fun st => rfl, rfl, rfl, rfl, by decide⟩

/-- C1: for every scenario identifier offered by the scenario tabs, clicking
that tab makes the results table render exactly the record list
`scenarioData[scenario]`, one row per record in stored order, and makes the
scenario info bar display exactly the four weights of
`scenarioWeights[scenario]`. -/
theorem scenario_tab_click_shows_dataset (sc : String) (hsc : sc ∈ scenarioIds)
    (st : FullState) (hd : st.dataTable = scenarioDataTable)
    (hw : st.weightsTable = scenarioWeightsTable) :
    ∃ rs w, scenarioData sc = some rs ∧ scenarioWeights sc = some w ∧
      renderedTable (step st (.scenarioTabClick sc)) = some (rs.map renderRow) ∧
      renderedWeights (step st (.scenarioTabClick sc)) =
        some (w.rc, w.gdp, w.infra, w.job) := by
  obtain ⟨rs, hrs⟩ := Option.isSome_iff_exists.1 (lookup_data_defined sc hsc)
  obtain ⟨w, hwt⟩ := Option.isSome_iff_exists.1 (lookup_weights_defined sc hsc)
  refine ⟨rs, w, hrs, hwt, ?_, ?_⟩
  · simp [renderedTable, currentResults, step, hd, resultsTableView,
      show lookupTable scenarioDataTable sc = some rs from hrs]
  · simp [renderedWeights, currentWeights, step, hw,
      show lookupTable scenarioWeightsTable sc = some w from hwt]

/-- Witness for C1: clicking the `'balanced'` tab from the load-time state. -/
theorem scenario_tab_click_shows_dataset_on_balanced :
    ∃ rs w, scenarioData "balanced" = some rs ∧
      scenarioWeights "balanced" = some w ∧
      renderedTable (step initialState (.scenarioTabClick "balanced")) =
        some (rs.map renderRow) ∧
      renderedWeights (step initialState (.scenarioTabClick "balanced")) =
        some (w.rc, w.gdp, w.infra, w.job) :=
  scenario_tab_click_shows_dataset "balanced" (by decide) initialState rfl rfl

/-- C3: CountryDetailCard renders the placeholder exactly when its prop is
null (and the placeholder view carries no record field), and ResultsScreen
passes null exactly when no record of the selected scenario's dataset has an
`iso` equal to the selected country code. -/
theorem placeholder_iff_no_matching_country :
    (∀ d : Option CountryResult, CountryDetailCard d = .placeholder ↔ d = none) ∧
    (∀ st : FullState,
      selectedCountryDetail st = none ↔
        ∀ c ∈ currentResultsList st, st.results.selectedCountry ≠ some c.iso) := by
  constructor
  · intro d
    cases d <;> simp [CountryDetailCard]
  · intro st
    unfold selectedCountryDetail currentResultsList
    cases h : currentResults st with
    | none => simp
    | some rs => simp [List.find?_eq_none]

/-- C7: `handleWeightChange(id, value)` sets the `value` of every weight
whose `id` matches, preserves each entry's `id`, `label` and
`technicalLabel` and every non-matching entry's `value`, preserves length
and order, and is the identity when no weight has the given id. -/
theorem handleWeightChange_updates_only_value
    (ws : List Weight) (id : String) (v : ℚ) :
    (handleWeightChange ws id v).length = ws.length ∧
    (∀ i : Nat,
      ((handleWeightChange ws id v)[i]?).map (·.id) = (ws[i]?).map (·.id) ∧
      ((handleWeightChange ws id v)[i]?).map (·.label) =
        (ws[i]?).map (·.label) ∧
      ((handleWeightChange ws id v)[i]?).map (·.technicalLabel) =
        (ws[i]?).map (·.technicalLabel) ∧
      ((handleWeightChange ws id v)[i]?).map (·.value) =
        (ws[i]?).map (fun w => if w.id = id then v else w.value)) ∧
    ((∀ w ∈ ws, w.id ≠ id) → handleWeightChange ws id v = ws) := by
  refine ⟨by simp [handleWeightChange], ?_, ?_⟩
  · intro i
    simp only [handleWeightChange, List.getElem?_map, Option.map_map]
    cases ws[i]? with
    | none => simp
    | some w =>
        by_cases hw : w.id = id <;>
          simp [Function.comp, hw]
  · intro h
    refine (List.map_congr_left ?_).trans (List.map_id ws)
    intro w hw
    simp [h w hw]

/-- Witness for C7: a matching update on the App's initial weight list keeps
its length, and an update with an id no entry has is the identity. -/
theorem handleWeightChange_updates_only_value_on_init :
    (handleWeightChange appInitialWeights "market" 40).length =
      appInitialWeights.length ∧
    handleWeightChange appInitialWeights "growth" 40 = appInitialWeights :=
  ⟨(handleWeightChange_updates_only_value appInitialWeights "market" 40).1,
   (handleWeightChange_updates_only_value appInitialWeights "growth" 40).2.2
     (by decide)⟩

/-- C5: in every one of the five scenario datasets, each record's `rank`
equals its 1-based position, the `topsisScore` values are strictly
decreasing down the list, and every `topsisScore` lies strictly between
0 and 1. -/
theorem scenario_datasets_well_ranked (sc : String) (hsc : sc ∈ scenarioIds) :
    ∃ rs, scenarioData sc = some rs ∧
      rs.map (·.rank) = List.range' 1 rs.length ∧
      List.Pairwise (fun a b => b.topsisScore < a.topsisScore) rs ∧
      ∀ c ∈ rs, 0 < c.topsisScore ∧ c.topsisScore < 1 := by
  have hsc2 : sc = "balanced" ∨ sc = "talent-focused" ∨
      sc = "regulation-focused" ∨ sc = "market-focused" ∨
      sc = "infra-focused" := by
    simpa [scenarioIds, scenarios] using hsc
  rcases hsc2 with rfl | rfl | rfl | rfl | rfl
  · exact ⟨balancedData, rfl, by decide,
      by norm_num [balancedData, List.pairwise_cons],
      by norm_num [balancedData, List.forall_mem_cons]⟩
  · exact ⟨talentData, rfl, by decide,
      by norm_num [talentData, List.pairwise_cons],
      by norm_num [talentData, List.forall_mem_cons]⟩
  · exact ⟨regulationData, rfl, by decide,
      by norm_num [regulationData, List.pairwise_cons],
      by norm_num [regulationData, List.forall_mem_cons]⟩
  · exact ⟨marketData, rfl, by decide,
      by norm_num [marketData, List.pairwise_cons],
      by norm_num [marketData, List.forall_mem_cons]⟩
  · exact ⟨infraData, rfl, by decide,
      by norm_num [infraData, List.pairwise_cons],
      by norm_num [infraData, List.forall_mem_cons]⟩

/-- Witness for C5: the `'balanced'` dataset. -/
theorem scenario_datasets_well_ranked_on_balanced :
    ∃ rs, scenarioData "balanced" = some rs ∧
      rs.map (·.rank) = List.range' 1 rs.length ∧
      List.Pairwise (fun a b => b.topsisScore < a.topsisScore) rs ∧
      ∀ c ∈ rs, 0 < c.topsisScore ∧ c.topsisScore < 1 :=
  scenario_datasets_well_ranked "balanced" (by decide)

/-- C8: every scenario's four weights sum exactly to 1; `'balanced'` assigns
0.25 everywhere, and each focused scenario assigns 0.40 to its emphasized
criterion and 0.20 to the other three. -/
theorem scenarioWeights_sum_to_one :
    (∀ sc ∈ scenarioIds,
        (scenarioWeights sc).map (fun w => w.rc + w.gdp + w.infra + w.job) =
          some 1) ∧
    scenarioWeights "balanced" = some ⟨0.25, 0.25, 0.25, 0.25⟩ ∧
    scenarioWeights "talent-focused" = some ⟨0.20, 0.20, 0.20, 0.40⟩ ∧
    scenarioWeights "regulation-focused" = some ⟨0.40, 0.20, 0.20, 0.20⟩ ∧
    scenarioWeights "market-focused" = some ⟨0.20, 0.40, 0.20, 0.20⟩ ∧
    scenarioWeights "infra-focused" = some ⟨0.20, 0.20, 0.40, 0.20⟩ := by
  refine ⟨?_, rfl, rfl, rfl, rfl, rfl⟩
  intro sc hsc
  have hsc2 : sc = "balanced" ∨ sc = "talent-focused" ∨
      sc = "regulation-focused" ∨ sc = "market-focused" ∨
      sc = "infra-focused" := by
    simpa [scenarioIds, scenarios] using hsc
  rcases hsc2 with rfl | rfl | rfl | rfl | rfl
  · rw [show scenarioWeights "balanced" =
        some ⟨0.25, 0.25, 0.25, 0.25⟩ from rfl]
    simp only [Option.map_some', Option.some.injEq]
    norm_num
  · rw [show scenarioWeights "talent-focused" =
        some ⟨0.20, 0.20, 0.20, 0.40⟩ from rfl]
    simp only [Option.map_some', Option.some.injEq]
    norm_num
  · rw [show scenarioWeights "regulation-focused" =
        some ⟨0.40, 0.20, 0.20, 0.20⟩ from rfl]
    simp only [Option.map_some', Option.some.injEq]
    norm_num
  · rw [show scenarioWeights "market-focused" =
        some ⟨0.20, 0.40, 0.20, 0.20⟩ from rfl]
    simp only [Option.map_some', Option.some.injEq]
    norm_num
  · rw [show scenarioWeights "infra-focused" =
        some ⟨0.20, 0.20, 0.40, 0.20⟩ from rfl]
    simp only [Option.map_some', Option.some.injEq]
    norm_num

/-- The metric quadruple (RC, GDP per capita, digital infra, job market)
each ISO code carries in every dataset; used to factor the proof that the
datasets agree on per-country metrics. -/
def countryMetrics (iso : String) : ℚ × ℚ × ℚ × ℚ :=
  if iso = "USA" then (72.5, 69287, 88.3, 91.2)
  else if iso = "GBR" then (68.2, 46125, 85.7, 84.6)
  else if iso = "CAN" then (75.8, 52051, 83.4, 79.5)
  else if iso = "AUS" then (71.3, 51812, 82.1, 76.8)
  else if iso = "DEU" then (65.4, 50795, 81.9, 82.3)
  else (69.7, 35196, 92.5, 74.2)

theorem metrics_of_iso :
    ∀ sc ∈ scenarioIds, ∀ c ∈ (scenarioData sc).getD [],
      (c.rcScore, c.gdpPerCapita, c.digitalInfra, c.jobMarket) =
        countryMetrics c.iso := by
  have hb : ∀ c ∈ balancedData,
      (c.rcScore, c.gdpPerCapita, c.digitalInfra, c.jobMarket) =
        countryMetrics c.iso := by
    intro c hc
    simp only [balancedData, List.mem_cons, List.not_mem_nil, or_false] at hc
    rcases hc with rfl | rfl | rfl | rfl | rfl | rfl <;> rfl
  have ht : ∀ c ∈ talentData,
      (c.rcScore, c.gdpPerCapita, c.digitalInfra, c.jobMarket) =
        countryMetrics c.iso := by
    intro c hc
    simp only [talentData, List.mem_cons, List.not_mem_nil, or_false] at hc
    rcases hc with rfl | rfl | rfl | rfl | rfl | rfl <;> rfl
  have hr : ∀ c ∈ regulationData,
      (c.rcScore, c.gdpPerCapita, c.digitalInfra, c.jobMarket) =
        countryMetrics c.iso := by
    intro c hc
    simp only [regulationData, List.mem_cons, List.not_mem_nil, or_false] at hc
    rcases hc with rfl | rfl | rfl | rfl | rfl | rfl <;> rfl
  have hm : ∀ c ∈ marketData,
      (c.rcScore, c.gdpPerCapita, c.digitalInfra, c.jobMarket) =
        countryMetrics c.iso := by
    intro c hc
    simp only [marketData, List.mem_cons, List.not_mem_nil, or_false] at hc
    rcases hc with rfl | rfl | rfl | rfl | rfl | rfl <;> rfl
  have hi : ∀ c ∈ infraData,
      (c.rcScore, c.gdpPerCapita, c.digitalInfra, c.jobMarket) =
        countryMetrics c.iso := by
    intro c hc
    simp only [infraData, List.mem_cons, List.not_mem_nil, or_false] at hc
    rcases hc with rfl | rfl | rfl | rfl | rfl | rfl <;> rfl
  intro sc hsc
  have hsc2 : sc = "balanced" ∨ sc = "talent-focused" ∨
      sc = "regulation-focused" ∨ sc = "market-focused" ∨
      sc = "infra-focused" := by
    simpa [scenarioIds, scenarios] using hsc
  rcases hsc2 with rfl | rfl | rfl | rfl | rfl
  · exact hb
  · exact ht
  · exact hr
  · exact hm
  · exact hi

/-- C10: every dataset holds exactly the six ISO codes, each once; a given
country's four metric scores agree across all five datasets; and once a
country is selected in a reachable state, the find lookup never fails, so
the detail card never reverts to the placeholder. -/
theorem datasets_share_isos_and_metrics :
    (∀ sc ∈ scenarioIds,
        List.Perm (((scenarioData sc).getD []).map (·.iso)) validIsos) ∧
    (∀ sc ∈ scenarioIds, ∀ c ∈ (scenarioData sc).getD [],
      ∀ sc2 ∈ scenarioIds, ∀ c2 ∈ (scenarioData sc2).getD [],
        c.iso = c2.iso →
          c.rcScore = c2.rcScore ∧ c.gdpPerCapita = c2.gdpPerCapita ∧
          c.digitalInfra = c2.digitalInfra ∧ c.jobMarket = c2.jobMarket) ∧
    (∀ st, Reachable st → ∀ iso, st.results.selectedCountry = some iso →
      (selectedCountryDetail st).isSome) := by
  refine ⟨by decide, ?_, ?_⟩
  · intro sc hsc c hc sc2 hsc2 c2 hc2 hiso
    have h1 := metrics_of_iso sc hsc c hc
    have h2 := metrics_of_iso sc2 hsc2 c2 hc2
    rw [hiso] at h1
    have h3 := h1.trans h2.symm
    exact ⟨congrArg (·.1) h3, congrArg (·.2.1) h3,
      congrArg (·.2.2.1) h3, congrArg (·.2.2.2) h3⟩
  · intro st h iso hiso
    obtain ⟨hd, -, hsc, hvalid⟩ := reachable_inv h
    obtain ⟨rs, hrs⟩ := Option.isSome_iff_exists.1 (lookup_data_defined _ hsc)
    have hfind := find_valid_iso _ hsc iso (hvalid iso hiso)
    rw [hrs] at hfind
    unfold selectedCountryDetail currentResults
    rw [hd, hrs, hiso]
    simpa using hfind

/-- Witness for C10: at the load-time state the selected country is `'USA'`
and the detail lookup succeeds. -/
theorem datasets_share_isos_and_metrics_at_init :
    (selectedCountryDetail initialState).isSome :=
  datasets_share_isos_and_metrics.2.2 initialState Reachable.init "USA" rfl

end Dashboard
